import Mathlib

/-!
Shallow embedding of the CroPro add-on's note-migration pipeline and its
search/import UI logic, for checking the natural-language specification
against the code.

Source files embedded directly:
  * src/cropro.py          (SearchLock, perform_search, perform_local_search,
                            perform_remote_search, do_import, open_other_col,
                            get_target_note_type, on_profile_will_close, ...)
  * src/widgets.py         (SearchResultLabel.set_count)
  * src/widgets/status_bar.py (ColoredCounter.set_count, StatusBar)
  * src/widgets/remote_search_bar.py (RemoteSearchWidget.get_request_args)
  * src/settings_dialog.py (configuration keys and their meaning)

The modules src/note_importer.py, src/collection_manager.py and
src/remote_search.py are not present in the repository snapshot; the
definitions taken from them are modelled from the specification and are
marked with a doc comment starting with "Modelled from the spec:".
-/

namespace CroPro

/-- A (name, id) pair as used for combo-box items (collection_manager.NameId).
Ids are integers; Anki model/deck ids are positive, sentinels are not. -/
structure NameId where
  name : String
  id : Int
deriving Repr, DecidableEq

/-- Modelled from the spec: the `NO_MODEL` sentinel from the missing
src/collection_manager.py.  It is the "no destination schema selected" item of
the note-type combo box; its id is not a real (strictly positive) model id. -/
def NO_MODEL : NameId := ⟨"None (create new if needed)", -1⟩

/-- The configuration keys read by the embedded code paths.  src/config.py is
not in the snapshot; the keys and their meaning are taken from their uses in
src/cropro.py and from the checkboxes and tooltips in src/settings_dialog.py. -/
structure Config where
  search_the_web : Bool
  allow_empty_search : Bool
  max_displayed_notes : Nat
  skip_duplicates : Bool
  copy_tags : Bool
  tag_original_notes : Bool
  call_add_cards_hook : Bool
  exported_tag : String
deriving Repr, DecidableEq

/-! ### Notes, schemas and collections (data model of the pipeline) -/

/-- A note read from the source (secondary) collection: an identifier, the
name and field names of its note type, its ordered field values, and tags. -/
structure SourceNote where
  id : Nat
  modelName : String
  modelFields : List String
  fields : List String
  tags : List String
deriving Repr, DecidableEq

/-- A note constructed for (or committed to) the destination collection. -/
structure DestNote where
  id : Nat
  mid : Int
  fields : List String
  tags : List String
deriving Repr, DecidableEq

/-- A note type ("schema"): identifier, name, ordered field names and the
default deck used for cards generated from notes of this schema. -/
structure Schema where
  id : Int
  name : String
  fields : List String
  deckId : Int
deriving Repr, DecidableEq

/-- The destination (primary) collection: committed notes, installed schemas,
and fresh-id counters. -/
structure DestCollection where
  notes : List DestNote
  models : List Schema
  nextNoteId : Nat
  nextModelId : Int
deriving Repr, DecidableEq

/-- The source collection's note table, as far as the pipeline mutates it
(the "tag original notes as exported" side effect writes back to it). -/
def SourceCollection := List SourceNote
deriving instance Repr, DecidableEq for SourceCollection

/-! ### Import outcomes and their aggregation -/

/-- Per-note outcome of the import pipeline. -/
inductive ImportOutcome where
  | success (committed : DestNote)
  | dupe (skipped : SourceNote)
  | error (cause : String)
deriving Repr, DecidableEq

/-- The result aggregator consumed by `StatusBar.set_import_status`
(src/widgets/status_bar.py lines 69-74 applies `len` to the three lists). -/
structure ImportResultCounter where
  successes : List DestNote
  duplicates : List SourceNote
  errors : List String
deriving Repr, DecidableEq

/-- Record one outcome into the aggregator. -/
def ImportResultCounter.record (r : ImportResultCounter) : ImportOutcome → ImportResultCounter
  | .success n => { r with successes := r.successes ++ [n] }
  | .dupe n => { r with duplicates := r.duplicates ++ [n] }
  | .error c => { r with errors := r.errors ++ [c] }

/-- Batch-level result: either the distinct "no destination schema" signal
(`NoteTypeUnavailable` in src/note_importer.py, caught in `do_import`'s
`on_failure`, src/cropro.py lines 432-437), or a finished aggregator. -/
inductive BatchResult where
  | noteTypeUnavailable
  | done (r : ImportResultCounter)
deriving Repr, DecidableEq

/-! ### The import pipeline (modelled: src/note_importer.py is missing) -/

/-- Modelled from the spec: TagPolicy (§4.5) of the missing
src/note_importer.py.  Copies all tags except the fixed excluded tag (the
host's suspension marker, "leech" per §8); the `copy_tags` configuration key
(src/settings_dialog.py: "When disabled, imported notes will contain no
tags.") disables tag copying entirely. -/
def prepare_tags (cfg : Config) (tags : List String) : List String :=
  if cfg.copy_tags then tags.filter (fun t => t ≠ "leech") else []

/-- Modelled from the spec: the "mark source note as exported" side effect
(§4.5) of the missing src/note_importer.py, gated by `tag_original_notes`
(src/settings_dialog.py tooltip) and writing `exported_tag` back to the
source store. -/
def mark_exported (cfg : Config) (src : SourceCollection) (nid : Nat) : SourceCollection :=
  List.map (fun n => if n.id = nid then { n with tags := n.tags ++ [cfg.exported_tag] } else n) src

/-- The duplicate key is derived from the first field (spec §4.4). -/
def first_field (fields : List String) : String := fields.headD ""

/-- Modelled from the spec: DuplicateGuard (§4.4) of the missing
src/note_importer.py — delegated duplicate detection: same schema plus a key
derived from the first field's content; an empty first field also counts as a
non-importable candidate. -/
def is_duplicate_or_empty (col : DestCollection) (cand : DestNote) : Bool :=
  first_field cand.fields == "" ||
    col.notes.any (fun n => n.mid == cand.mid && first_field n.fields == first_field cand.fields)

/-- Modelled from the spec: the candidate note construction of §4.6 step 2 —
fields copied verbatim and in order, tags from TagPolicy, bound to the
resolved destination schema. -/
def candidate (cfg : Config) (mid : Int) (n : SourceNote) : DestNote :=
  ⟨0, mid, n.fields, prepare_tags cfg n.tags⟩

/-- Modelled from the spec: the source store after the optional "mark source
note as exported" side effect (§4.5), applied before duplicate detection. -/
def source_after (cfg : Config) (src : SourceCollection) (n : SourceNote) : SourceCollection :=
  if cfg.tag_original_notes then mark_exported cfg src n.id else src

/-- Modelled from the spec: §4.6 step 2's schema-level side effect — set the
resolved schema's default deck to the caller-chosen destination deck. -/
def assign_deck (col : DestCollection) (deck : NameId) (mid : Int) : DestCollection :=
  { col with
    models := col.models.map (fun m => if m.id = mid then { m with deckId := deck.id } else m) }

/-- Modelled from the spec: §4.6 step 5 — insert the candidate into the
destination store under a fresh note id. -/
def commit_note (col : DestCollection) (cand : DestNote) : DestCollection :=
  { col with
    notes := col.notes ++ [{ cand with id := col.nextNoteId }],
    nextNoteId := col.nextNoteId + 1 }

namespace NoteImporter

/-- Modelled from the spec: one pass of the per-note state machine (§4.6) of
the missing src/note_importer.py, for a caller-chosen destination schema id
`mid` and deck `deck`: construct the candidate with fields copied verbatim and
tags from TagPolicy, optionally mark the source note exported (before the
duplicate check, §4.5), reassign the schema's default deck, then either stop
with `dupe` (when the duplicate guard fires and `skip_duplicates` is enabled —
src/settings_dialog.py: "Don't import a note if turns out to be a duplicate")
or commit the note with a fresh id and report `success`. -/
def process_note (cfg : Config) (st : DestCollection × SourceCollection)
    (deck : NameId) (mid : Int) (n : SourceNote) :
    (DestCollection × SourceCollection) × ImportOutcome :=
  if cfg.skip_duplicates && is_duplicate_or_empty (assign_deck st.1 deck mid) (candidate cfg mid n) then
    ((assign_deck st.1 deck mid, source_after cfg st.2 n), ImportOutcome.dupe n)
  else
    ((commit_note (assign_deck st.1 deck mid) (candidate cfg mid n), source_after cfg st.2 n),
      ImportOutcome.success
        { candidate cfg mid n with id := (assign_deck st.1 deck mid).nextNoteId })

/-- Modelled from the spec: `NoteImporter.import_notes` of the missing
src/note_importer.py (§4.6 batch contract): if the destination schema is
unset (no strictly positive model id was selected, cf. `get_target_note_type`)
the batch aborts immediately with the distinct `noteTypeUnavailable` signal,
touching neither store and processing zero notes; otherwise every note runs
through the per-note pipeline and the outcomes are aggregated. -/
def import_notes (cfg : Config) (col : DestCollection) (src : SourceCollection)
    (notes : List SourceNote) (model : NameId) (deck : NameId) :
    (DestCollection × SourceCollection) × BatchResult :=
  if model.id ≤ 0 then ((col, src), BatchResult.noteTypeUnavailable)
  else
    let step := fun (acc : (DestCollection × SourceCollection) × ImportResultCounter) n =>
      let res := process_note cfg acc.1 deck model.id n
      (res.1, acc.2.record res.2)
    let out := notes.foldl step ((col, src), ⟨[], [], []⟩)
    (out.1, BatchResult.done out.2)

/-- Extract the aggregator of a finished batch (empty aggregator when the
batch aborted before processing). -/
def counter_of : BatchResult → ImportResultCounter
  | .noteTypeUnavailable => ⟨[], [], []⟩
  | .done r => r

/-- The aggregator produced by a batch. -/
def batch_counter (cfg : Config) (col : DestCollection) (src : SourceCollection)
    (notes : List SourceNote) (model : NameId) (deck : NameId) : ImportResultCounter :=
  counter_of (NoteImporter.import_notes cfg col src notes model deck).2

/-- The pair of stores after a batch. -/
def batch_state (cfg : Config) (col : DestCollection) (src : SourceCollection)
    (notes : List SourceNote) (model : NameId) (deck : NameId) :
    DestCollection × SourceCollection :=
  (NoteImporter.import_notes cfg col src notes model deck).1

end NoteImporter

/-! ### Schema reconciliation (modelled: src/note_importer.py is missing) -/

/-- Modelled from the spec: SchemaReconciler.reconcile (§4.2) of the missing
src/note_importer.py.  Look up a destination schema by the source schema's
name; reuse it when the field-name sequences are exactly equal; otherwise
install a deep copy named with the " cropro" suffix; when no schema of that
name exists install a deep copy under the original name. -/
def reconcile (s : Schema) (col : DestCollection) : Schema × DestCollection :=
  match col.models.find? (fun m => m.name == s.name) with
  | some found =>
    if found.fields == s.fields then (found, col)
    else
      let fresh : Schema := ⟨col.nextModelId, s.name ++ " cropro", s.fields, s.deckId⟩
      (fresh, { col with models := col.models ++ [fresh], nextModelId := col.nextModelId + 1 })
  | none =>
    let fresh : Schema := ⟨col.nextModelId, s.name, s.fields, s.deckId⟩
    (fresh, { col with models := col.models ++ [fresh], nextModelId := col.nextModelId + 1 })

/-! ### Status bar counters (src/widgets/status_bar.py) -/

/-- The singular/plural message pair fed to ngettext. -/
structure NGetTextVariant where
  singular : String
  plural : String
deriving Repr, DecidableEq

/-- gettext.ngettext: pick the singular message exactly when the count is 1. -/
def ngettext (v : NGetTextVariant) (n : Nat) : String :=
  if n = 1 then v.singular else v.plural

/-- The `%` formatting applied in `ColoredCounter.set_count`
(src/widgets/status_bar.py line 29): substitute the count for "%d". -/
def render_count (v : NGetTextVariant) (n : Nat) : String :=
  (ngettext v n).replace "%d" (toString n)

/-- `ColoredCounter.set_count` (src/widgets/status_bar.py lines 27-32): when
the count is positive the label shows the rendered message; otherwise the
label is hidden (`none`). -/
def ColoredCounter.set_count (v : NGetTextVariant) (count : Nat) : Option String :=
  if count > 0 then some (render_count v count) else none

/-- Message pair of the success counter (src/widgets/status_bar.py lines 38-44). -/
def success_desc : NGetTextVariant :=
  ⟨"%d note was successfully imported.", "%d notes were successfully imported."⟩

/-- Message pair of the duplicate counter (src/widgets/status_bar.py lines 45-51). -/
def dupes_desc : NGetTextVariant :=
  ⟨"%d note was a duplicate and was skipped.", "%d notes were duplicates and were skipped."⟩

/-- Message pair of the error counter (src/widgets/status_bar.py lines 52-58). -/
def errors_desc : NGetTextVariant :=
  ⟨"%d note encountered connection errors.", "%d notes encountered connection errors."⟩

/-- The visible state of the three status-bar counters (success, duplicate,
error); `none` means the corresponding label is hidden. -/
def StatusDisplay := Option String × Option String × Option String
deriving instance Repr, DecidableEq for StatusDisplay

/-- `StatusBar.set_import_count` (src/widgets/status_bar.py lines 76-79). -/
def StatusBar.set_import_count (s d e : Nat) : StatusDisplay :=
  (ColoredCounter.set_count success_desc s,
   ColoredCounter.set_count dupes_desc d,
   ColoredCounter.set_count errors_desc e)

/-- `StatusBar.set_import_status` (src/widgets/status_bar.py lines 69-74):
each displayed count is the length of the corresponding aggregator list. -/
def StatusBar.set_import_status (r : ImportResultCounter) : StatusDisplay :=
  StatusBar.set_import_count r.successes.length r.duplicates.length r.errors.length

/-- `StatusBar.hide_counters` (src/widgets/status_bar.py lines 64-67). -/
def StatusBar.hidden : StatusDisplay := (none, none, none)

/-! ### Search result label (src/widgets.py) -/

/-- The visible state of the search-result label: its text, the color set via
the stylesheet, and whether it is shown. -/
structure LabelDisplay where
  text : String
  color : String
  visible : Bool
deriving Repr, DecidableEq

/-- `SearchResultLabel.set_count` (src/widgets.py lines 81-92): report "No
notes found" in red for an empty result, the plain count in green when
everything found is displayed, and the truncated form in orange otherwise;
the label is always shown afterwards. -/
def SearchResultLabel.set_count (found displayed : Nat) : LabelDisplay :=
  if found = 0 then ⟨"No notes found", "red", true⟩
  else if displayed = found then ⟨toString found ++ " notes found", "green", true⟩
  else ⟨toString found ++ " notes found (displaying first " ++ toString displayed ++ ")",
        "orange", true⟩

/-- Modelled from the spec: `SearchResultLabel.set_search_result`, called in
src/cropro.py lines 352 and 400 with the full result sequence and the
`max_displayed_notes` limit; its definition is in a widgets module missing
from the snapshot.  It reports the full found count and the number actually
displayed (the found count capped at the limit) through `set_count`. -/
def set_search_result (foundCount limit : Nat) : LabelDisplay :=
  SearchResultLabel.set_count foundCount (min foundCount limit)

/-! ### Secondary collection lifecycle -/

/-- Modelled from the spec: `CollectionManager` of the missing
src/collection_manager.py.  `openHandles` lists the underlying secondary
collection handles currently open; the spec (§3) requires "Exactly one
secondary handle may be open at a time; opening a new one first closes the
previous." -/
structure CollectionManager where
  openHandles : List String
deriving Repr, DecidableEq

/-- Whether a secondary collection is currently open (`is_opened`). -/
def CollectionManager.is_opened (m : CollectionManager) : Bool :=
  !m.openHandles.isEmpty

/-- The profile name of the open secondary collection, if any (`name`). -/
def CollectionManager.profile (m : CollectionManager) : Option String :=
  m.openHandles.getLast?

/-- Modelled from the spec: `close_all` releases every secondary-store
resource; idempotent (§4.1). -/
def CollectionManager.close_all (_m : CollectionManager) : CollectionManager := ⟨[]⟩

/-- Modelled from the spec: `open_collection` first closes the previously
open handle, then opens the named collection (§3). -/
def CollectionManager.open_collection (m : CollectionManager) (profileName : String) :
    CollectionManager :=
  ⟨(m.close_all).openHandles ++ [profileName]⟩

/-! ### Main window state (src/cropro.py) -/

/-- `SearchLock` (src/cropro.py lines 144-159): a single boolean flag, set
while a search operation is in progress.  Its own docstring: "Until a search
operation finishes, don't allow subsequent searches." -/
structure SearchLock where
  searching : Bool
deriving Repr, DecidableEq

/-- `_should_abort_search` (src/cropro.py lines 322-323): abort when a search
is already in progress or the window is not visible. -/
def should_abort_search (lock : SearchLock) (visible : Bool) : Bool :=
  lock.searching || !visible

/-- The remote search options whose current combo-box data feeds
`get_request_args` (src/widgets/remote_search_bar.py); `none` models a falsy
`http_arg` (the "all"/"none" items carry `None`). -/
structure RemoteOpts where
  sortArg : Option String
  categoryArg : Option String
  jlptArg : Option String
deriving Repr, DecidableEq

/-- One optional request argument: emitted only when the combo's `http_arg`
is truthy (src/widgets/remote_search_bar.py lines 111-113). -/
def push_arg (key : String) : Option String → List (String × String)
  | some v => if v = "" then [] else [(key, v)]
  | none => []

/-- `RemoteSearchWidget.get_request_args` (src/widgets/remote_search_bar.py
lines 107-114): an empty keyword yields an empty argument map; otherwise the
keyword plus the truthy combo arguments, in source order (sort, category,
jlpt). -/
def get_request_args (text : String) (opts : RemoteOpts) : List (String × String) :=
  if text = "" then []
  else ("keyword", text) :: (push_arg "sort" opts.sortArg ++
    push_arg "category" opts.categoryArg ++ push_arg "jlpt" opts.jlptArg)

/-- An entry of the note list widget: a local note (by id) or a remote note. -/
inductive DisplayedItem where
  | localNote (id : Nat)
  | remoteNote (payload : String)
deriving Repr, DecidableEq

/-- The state of the main window that the embedded handlers read and write. -/
structure MainWindow where
  lock : SearchLock
  visible : Bool
  noteList : List DisplayedItem
  selectedNotes : List SourceNote
  searchLabel : Option LabelDisplay
  importCounters : StatusDisplay
  otherCol : CollectionManager
  selectedProfileName : Option String
  decksPopulated : Bool
  currentSrcDeck : NameId
  remoteOpts : RemoteOpts
  currentModel : NameId
  currentDeck : NameId
deriving Repr, DecidableEq

/-- Which background operation (if any) a handler launched. -/
inductive LaunchedOp where
  | none
  | localSearch (deck : NameId) (text : String)
  | remoteSearch (args : List (String × String))
  | batchOf (notes : List SourceNote) (model : NameId) (deck : NameId)
deriving Repr, DecidableEq

/-- `reset_cropro_status` (src/cropro.py lines 304-308): hide the status-bar
counters, hide the search-result label, clear the note list. -/
def reset_cropro_status (st : MainWindow) : MainWindow :=
  { st with importCounters := StatusBar.hidden, searchLabel := none, noteList := [] }

/-- `open_other_col` (src/cropro.py lines 293-302): do nothing without a
selected profile; when the selected collection is not the opened one, reset
the status, open it (closing the previous handle) and repopulate the deck
combo box. -/
def open_other_col (st : MainWindow) : MainWindow :=
  match st.selectedProfileName with
  | Option.none => st
  | some profileName =>
    if !st.otherCol.is_opened || st.otherCol.profile ≠ some profileName then
      let st1 := reset_cropro_status st
      { st1 with otherCol := st1.otherCol.open_collection profileName, decksPopulated := true }
    else st

/-- The state after the entry steps of `perform_local_search` (src/cropro.py
lines 380-382): reset the status, then open the other collection. -/
def local_search_entry (st : MainWindow) : MainWindow :=
  open_other_col (reset_cropro_status st)

/-- `perform_local_search` (src/cropro.py lines 376-413): reset the status,
open the other collection, short-circuit on an empty search text unless
`allow_empty_search` is set, short-circuit when no profile is selected or the
deck combo is unpopulated, and otherwise take the search lock and launch the
query against the secondary collection. -/
def perform_local_search (cfg : Config) (st : MainWindow) (text : String) :
    MainWindow × LaunchedOp :=
  if text = "" && !cfg.allow_empty_search then (local_search_entry st, LaunchedOp.none)
  else if !((local_search_entry st).selectedProfileName.isSome &&
      (local_search_entry st).decksPopulated) then
    (local_search_entry st, LaunchedOp.none)
  else
    ({ local_search_entry st with lock := ⟨true⟩ },
      LaunchedOp.localSearch (local_search_entry st).currentSrcDeck text)

/-- `perform_remote_search` (src/cropro.py lines 333-374): reset the status,
return before issuing any request when the search text is empty (no
configuration flag is consulted), and otherwise take the search lock and
launch the web request built by `get_request_args`. -/
def perform_remote_search (_cfg : Config) (st : MainWindow) (text : String) :
    MainWindow × LaunchedOp :=
  let st1 := reset_cropro_status st
  if text = "" then (st1, LaunchedOp.none)
  else ({ st1 with lock := ⟨true⟩ }, LaunchedOp.remoteSearch (get_request_args text st1.remoteOpts))

/-- `perform_search` (src/cropro.py lines 325-331): abort while a search is
outstanding or the window is hidden, then dispatch on `search_the_web`. -/
def perform_search (cfg : Config) (st : MainWindow) (text : String) :
    MainWindow × LaunchedOp :=
  if should_abort_search st.lock st.visible then (st, LaunchedOp.none)
  else if cfg.search_the_web then perform_remote_search cfg st text
  else perform_local_search cfg st text

/-- The `set_search_results` success callback of the local search
(src/cropro.py lines 394-401): display at most `max_displayed_notes` of the
found notes, report the full count to the label, release the search lock. -/
def local_search_finished (cfg : Config) (st : MainWindow) (foundIds : List Nat) : MainWindow :=
  { st with
    noteList := (foundIds.take cfg.max_displayed_notes).map DisplayedItem.localNote,
    searchLabel := some (set_search_result foundIds.length cfg.max_displayed_notes),
    lock := ⟨false⟩ }

/-- The `set_search_results` success callback of the remote search
(src/cropro.py lines 346-353): same truncation, label and lock release. -/
def remote_search_finished (cfg : Config) (st : MainWindow) (found : List String) : MainWindow :=
  { st with
    noteList := (found.take cfg.max_displayed_notes).map DisplayedItem.remoteNote,
    searchLabel := some (set_search_result found.length cfg.max_displayed_notes),
    lock := ⟨false⟩ }

/-- `do_import` (src/cropro.py lines 421-461): take the selected notes, clear
the selection and launch the import batch on the collection.  No check of the
search lock appears anywhere on this path, and the lock is not modified. -/
def do_import (st : MainWindow) : MainWindow × LaunchedOp :=
  ({ st with selectedNotes := [] },
   LaunchedOp.batchOf st.selectedNotes st.currentModel st.currentDeck)

/-- The `on_success` callback of `do_import` (src/cropro.py lines 439-446):
show the aggregate import counts in the status bar. -/
def on_import_success (st : MainWindow) (r : ImportResultCounter) : MainWindow :=
  { st with importCounters := StatusBar.set_import_status r }

/-- `on_profile_will_close` (src/cropro.py lines 489-491): close the window
and release all secondary-store resources. -/
def on_profile_will_close (st : MainWindow) : MainWindow :=
  { st with visible := false, otherCol := st.otherCol.close_all }

/-- The two events that drive the secondary-collection lifecycle from the
main window: the user selecting a source profile (src/cropro.py line 257
connects it to `open_other_col`) and the host profile unloading. -/
inductive ProfileEvent where
  | selectProfile (name : Option String)
  | profileWillClose
deriving Repr, DecidableEq

/-- One step of the secondary-collection lifecycle. -/
def profile_step (st : MainWindow) : ProfileEvent → MainWindow
  | .selectProfile n => open_other_col { st with selectedProfileName := n }
  | .profileWillClose => on_profile_will_close st

/-! ### Target note type (src/cropro.py lines 251-254) -/

/-- An entry of the primary collection's note-type table, as read through
`mw.col.models.get`. -/
structure NotetypeDict where
  ntid : Int
  ntname : String
deriving Repr, DecidableEq

/-- `mw.col.models.get`: look a note type up by id. -/
def models_get (models : List NotetypeDict) (i : Int) : Option NotetypeDict :=
  models.find? (fun m => m.ntid == i)

/-- `get_target_note_type` (src/cropro.py lines 251-254): the selected model
is returned only when its id is truthy and strictly positive; otherwise the
function falls through and returns `None`. -/
def get_target_note_type (models : List NotetypeDict) (selected : NameId) :
    Option NotetypeDict :=
  if selected.id ≠ 0 ∧ selected.id > 0 then models_get models selected.id else Option.none

/-! ### Concrete sample values used by witnesses and counterexamples -/

/-- A sample source note with two fields and two tags. -/
def sampleNote : SourceNote := ⟨7, "Basic", ["Front", "Back"], ["hello", "world"], ["animal", "leech"]⟩

/-- A sample configuration with default-like settings. -/
def sampleConfig : Config :=
  { search_the_web := false, allow_empty_search := false, max_displayed_notes := 100,
    skip_duplicates := true, copy_tags := true, tag_original_notes := false,
    call_add_cards_hook := false, exported_tag := "exported" }

/-- The sample configuration with duplicate skipping switched off. -/
def noSkipConfig : Config := { sampleConfig with skip_duplicates := false }

/-- The sample configuration with a display limit of three notes. -/
def smallConfig : Config := { sampleConfig with max_displayed_notes := 3 }

/-- A sample destination collection holding one "Basic" schema and no notes. -/
def sampleCol : DestCollection := ⟨[], [⟨1, "Basic", ["Front", "Back"], 1⟩], 100, 2⟩

/-- A sample source collection holding the sample note. -/
def sampleSrcCol : SourceCollection := [sampleNote]

/-- The user-selected destination schema of the samples. -/
def basicModel : NameId := ⟨"Basic", 1⟩

/-- The user-selected destination deck of the samples. -/
def defaultDeck : NameId := ⟨"Default", 1⟩

/-- A sample main-window state in which a search is outstanding: the busy
flag of the `SearchLock` is set and a note is selected for import. -/
def busyWindow : MainWindow :=
  { lock := ⟨true⟩, visible := true, noteList := [], selectedNotes := [sampleNote],
    searchLabel := Option.none, importCounters := StatusBar.hidden,
    otherCol := ⟨["sentences"]⟩, selectedProfileName := some "sentences",
    decksPopulated := true, currentSrcDeck := ⟨"Whole collection", -1⟩,
    remoteOpts := ⟨Option.none, Option.none, Option.none⟩,
    currentModel := basicModel, currentDeck := defaultDeck }

/-! ### Helper lemmas -/

/-- `open_other_col` preserves a cleared note list and a hidden search label:
its opening branch starts from `reset_cropro_status`, which clears both. -/
theorem open_other_col_keeps_cleared (st : MainWindow)
    (h1 : st.noteList = []) (h2 : st.searchLabel = Option.none) :
    (open_other_col st).noteList = [] ∧ (open_other_col st).searchLabel = Option.none := by
  unfold open_other_col
  cases hsel : st.selectedProfileName with
  | none => exact ⟨h1, h2⟩
  | some p =>
    by_cases hc : (!st.otherCol.is_opened || st.otherCol.profile ≠ some p : Bool) = true
    · simp only [hc, if_true]
      exact ⟨rfl, rfl⟩
    · simp only [hc, if_false, Bool.false_eq_true]
      exact ⟨h1, h2⟩

/-- A `ColoredCounter` is visible exactly when its count is positive. -/
theorem set_count_isSome_iff (v : NGetTextVariant) (n : Nat) :
    (ColoredCounter.set_count v n).isSome ↔ 0 < n := by
  unfold ColoredCounter.set_count
  split <;> simp_all

/-! ### Claim theorems -/

/-- C1 (counterexample): the claim states that the single busy guard covers
both the search path and the import path, so that no import may start while a
search is outstanding.  In the code, `do_import` (src/cropro.py lines
421-461) never consults the `SearchLock`: in the concrete window state
`busyWindow`, whose busy flag is set by an outstanding search, clicking
the import button still launches an import batch, and the flag is left untouched
(imports neither check nor set it). -/
theorem C1_import_not_guarded :
    busyWindow.lock.searching = true ∧
    (do_import busyWindow).2 ≠ LaunchedOp.none ∧
    (do_import busyWindow).1.lock.searching = true := by
  refine ⟨rfl, ?_, rfl⟩
  decide

/-- C1 (amended): the busy guard covers only the search path: while the busy
flag is set, `perform_search` performs no search and changes nothing;
the import path neither consults nor modifies the flag (`do_import` launches its
batch regardless of the flag and leaves the lock unchanged). -/
theorem C1_busy_guard_search_only (cfg : Config) (st : MainWindow) (text : String)
    (h : st.lock.searching = true) :
    perform_search cfg st text = (st, LaunchedOp.none) ∧
    (do_import st).1.lock = st.lock := by
  refine ⟨?_, rfl⟩
  unfold perform_search should_abort_search
  simp [h]

/-- C1 (witness): the amended guarantee at the concrete busy window. -/
theorem C1_busy_guard_search_only_witness :
    perform_search sampleConfig busyWindow "cat" = (busyWindow, LaunchedOp.none) ∧
    (do_import busyWindow).1.lock = busyWindow.lock :=
  C1_busy_guard_search_only sampleConfig busyWindow "cat" rfl

/-- C2: a local search with empty search text and `allow_empty_search = false`
short-circuits before any query reaches the secondary store: no search
operation is launched, and the cleared note list and hidden result label
constitute the (vacuously) empty result. -/
theorem C2_empty_local_search (cfg : Config) (st : MainWindow)
    (hA : cfg.allow_empty_search = false) :
    (perform_local_search cfg st "").2 = LaunchedOp.none ∧
    (perform_local_search cfg st "").1.noteList = [] ∧
    (perform_local_search cfg st "").1.searchLabel = Option.none := by
  have hcl := open_other_col_keeps_cleared (reset_cropro_status st) rfl rfl
  unfold perform_local_search
  rw [if_pos (by rw [hA]; decide)]
  exact ⟨rfl, hcl.1, hcl.2⟩

/-- C2 (witness): the empty local search at a concrete window and config. -/
theorem C2_empty_local_search_witness :
    (perform_local_search sampleConfig busyWindow "").2 = LaunchedOp.none ∧
    (perform_local_search sampleConfig busyWindow "").1.noteList = [] ∧
    (perform_local_search sampleConfig busyWindow "").1.searchLabel = Option.none :=
  C2_empty_local_search sampleConfig busyWindow rfl

/-- C3 (counterexample): the claim states the three aggregate counts are
shown even when all of them are zero.  `ColoredCounter.set_count`
(src/widgets/status_bar.py lines 27-32) hides a counter whose count is zero,
so after a batch with an empty aggregator all three labels are hidden
(`none`) and nothing is shown. -/
theorem C3_zero_counts_hidden :
    (StatusBar.set_import_status ⟨[], [], []⟩).1 = Option.none ∧
    (StatusBar.set_import_status ⟨[], [], []⟩).2.1 = Option.none ∧
    (StatusBar.set_import_status ⟨[], [], []⟩).2.2 = Option.none :=
  ⟨rfl, rfl, rfl⟩

/-- C3 (amended): after every import batch the status bar is set from the
result aggregator, each counter's count being the number of outcomes of that
kind (the length of the corresponding aggregator list); a counter is visible
exactly when its count is positive, so an all-zero batch shows no counters. -/
theorem C3_counts_after_batch (st : MainWindow) (r : ImportResultCounter) :
    (on_import_success st r).importCounters =
      (ColoredCounter.set_count success_desc r.successes.length,
       ColoredCounter.set_count dupes_desc r.duplicates.length,
       ColoredCounter.set_count errors_desc r.errors.length) ∧
    ((on_import_success st r).importCounters.1.isSome ↔ 0 < r.successes.length) ∧
    ((on_import_success st r).importCounters.2.1.isSome ↔ 0 < r.duplicates.length) ∧
    ((on_import_success st r).importCounters.2.2.isSome ↔ 0 < r.errors.length) :=
  ⟨rfl, set_count_isSome_iff _ _, set_count_isSome_iff _ _, set_count_isSome_iff _ _⟩

/-- C4: a batch invoked with no destination schema selected (no strictly
positive model id) aborts before any note is processed: both stores are
returned unchanged and the distinct `noteTypeUnavailable` signal is reported,
which `do_import`'s failure handler turns into the prompt to assign a note
type (src/cropro.py lines 132-141 and 432-437). -/
theorem C4_no_schema_aborts (cfg : Config) (col : DestCollection) (src : SourceCollection)
    (notes : List SourceNote) (model deck : NameId) (h : model.id ≤ 0) :
    NoteImporter.import_notes cfg col src notes model deck =
      ((col, src), BatchResult.noteTypeUnavailable) := by
  unfold NoteImporter.import_notes
  simp [h]

/-- C4 (witness): the aborting batch at concrete stores, notes and the
`NO_MODEL` sentinel. -/
theorem C4_no_schema_aborts_witness :
    NoteImporter.import_notes sampleConfig sampleCol sampleSrcCol [sampleNote] NO_MODEL defaultDeck =
      ((sampleCol, sampleSrcCol), BatchResult.noteTypeUnavailable) :=
  C4_no_schema_aborts sampleConfig sampleCol sampleSrcCol [sampleNote] NO_MODEL defaultDeck (by decide)

/-- A batch over a single note reduces to one pass of the per-note pipeline. -/
theorem batch_single_note (cfg : Config) (col : DestCollection) (src : SourceCollection)
    (n : SourceNote) (model deck : NameId) (h : ¬ model.id ≤ 0) :
    NoteImporter.import_notes cfg col src [n] model deck =
      ((NoteImporter.process_note cfg (col, src) deck model.id n).1,
        BatchResult.done
          (ImportResultCounter.record ⟨[], [], []⟩
            (NoteImporter.process_note cfg (col, src) deck model.id n).2)) := by
  unfold NoteImporter.import_notes
  rw [if_neg h]
  rfl

/-- C5 (counterexample): the claim states that importing the same source note
twice against the same destination deck and schema never yields two `Success`
outcomes.  Duplicate suppression is gated by the `skip_duplicates`
configuration key (src/settings_dialog.py lines 89-92: "Don't import a note
if turns out to be a duplicate"): with the option disabled, importing the
sample note twice commits it twice and both batches report a success and no
duplicate. -/
theorem C5_two_successes_without_skip :
    (NoteImporter.batch_counter noSkipConfig sampleCol sampleSrcCol [sampleNote]
        basicModel defaultDeck).successes.length = 1 ∧
    (NoteImporter.batch_counter noSkipConfig sampleCol sampleSrcCol [sampleNote]
        basicModel defaultDeck).duplicates = [] ∧
    (NoteImporter.batch_counter noSkipConfig
        (NoteImporter.batch_state noSkipConfig sampleCol sampleSrcCol [sampleNote]
          basicModel defaultDeck).1
        (NoteImporter.batch_state noSkipConfig sampleCol sampleSrcCol [sampleNote]
          basicModel defaultDeck).2
        [sampleNote] basicModel defaultDeck).successes.length = 1 ∧
    (NoteImporter.batch_counter noSkipConfig
        (NoteImporter.batch_state noSkipConfig sampleCol sampleSrcCol [sampleNote]
          basicModel defaultDeck).1
        (NoteImporter.batch_state noSkipConfig sampleCol sampleSrcCol [sampleNote]
          basicModel defaultDeck).2
        [sampleNote] basicModel defaultDeck).duplicates = [] := by
  decide

/-- C5 (amended): with the `skip_duplicates` option enabled, importing a note
with a nonempty first field that has no duplicate in the destination yields
`Success`, and importing it a second time against the same destination deck
and schema yields `Duplicate` — never two successes. -/
theorem C5_success_then_duplicate (cfg : Config) (col : DestCollection)
    (src : SourceCollection) (n : SourceNote) (model deck : NameId)
    (hskip : cfg.skip_duplicates = true)
    (hmid : 0 < model.id)
    (hne : first_field n.fields ≠ "")
    (hnew : col.notes.any
      (fun m => m.mid == model.id && first_field m.fields == first_field n.fields) = false) :
    (NoteImporter.batch_counter cfg col src [n] model deck).successes.length = 1 ∧
    (NoteImporter.batch_counter cfg col src [n] model deck).duplicates = [] ∧
    (NoteImporter.batch_counter cfg
        (NoteImporter.batch_state cfg col src [n] model deck).1
        (NoteImporter.batch_state cfg col src [n] model deck).2
        [n] model deck).successes = [] ∧
    (NoteImporter.batch_counter cfg
        (NoteImporter.batch_state cfg col src [n] model deck).1
        (NoteImporter.batch_state cfg col src [n] model deck).2
        [n] model deck).duplicates.length = 1 := by
  have hnot : ¬ model.id ≤ 0 := by omega
  have hguard1 :
      is_duplicate_or_empty (assign_deck col deck model.id) (candidate cfg model.id n) = false := by
    unfold is_duplicate_or_empty
    rw [Bool.or_eq_false_iff]
    exact ⟨beq_eq_false_iff_ne.mpr hne, hnew⟩
  have hstep1 :
      NoteImporter.process_note cfg (col, src) deck model.id n =
        ((commit_note (assign_deck col deck model.id) (candidate cfg model.id n),
          source_after cfg src n),
          ImportOutcome.success
            { candidate cfg model.id n with id := (assign_deck col deck model.id).nextNoteId }) := by
    unfold NoteImporter.process_note
    rw [hskip, Bool.true_and, hguard1, if_neg (by simp)]
  have h1 := batch_single_note cfg col src n model deck hnot
  rw [hstep1] at h1
  have hguard2 :
      is_duplicate_or_empty
        (assign_deck (commit_note (assign_deck col deck model.id) (candidate cfg model.id n))
          deck model.id)
        (candidate cfg model.id n) = true := by
    unfold is_duplicate_or_empty
    rw [Bool.or_eq_true_iff]
    right
    show ((col.notes ++
        [{ candidate cfg model.id n with
            id := (assign_deck col deck model.id).nextNoteId }]).any
      (fun m => m.mid == model.id && first_field m.fields == first_field n.fields)) = true
    rw [List.any_append, hnew, Bool.false_or]
    simp [candidate]
  have hstep2 :
      NoteImporter.process_note cfg
        (commit_note (assign_deck col deck model.id) (candidate cfg model.id n),
          source_after cfg src n) deck model.id n =
        ((assign_deck (commit_note (assign_deck col deck model.id) (candidate cfg model.id n))
            deck model.id,
          source_after cfg (source_after cfg src n) n),
          ImportOutcome.dupe n) := by
    unfold NoteImporter.process_note
    rw [hskip, Bool.true_and, hguard2, if_pos rfl]
  have h2 := batch_single_note cfg
    (commit_note (assign_deck col deck model.id) (candidate cfg model.id n))
    (source_after cfg src n) n model deck hnot
  rw [hstep2] at h2
  unfold NoteImporter.batch_counter NoteImporter.batch_state
  simp only [h1, h2, NoteImporter.counter_of, ImportResultCounter.record]
  simp

/-- C5 (witness): the amended success-then-duplicate behavior at the concrete
sample note, collection, model and deck with `skip_duplicates` enabled. -/
theorem C5_success_then_duplicate_witness :
    (NoteImporter.batch_counter sampleConfig sampleCol sampleSrcCol [sampleNote]
        basicModel defaultDeck).successes.length = 1 ∧
    (NoteImporter.batch_counter sampleConfig sampleCol sampleSrcCol [sampleNote]
        basicModel defaultDeck).duplicates = [] ∧
    (NoteImporter.batch_counter sampleConfig
        (NoteImporter.batch_state sampleConfig sampleCol sampleSrcCol [sampleNote]
          basicModel defaultDeck).1
        (NoteImporter.batch_state sampleConfig sampleCol sampleSrcCol [sampleNote]
          basicModel defaultDeck).2
        [sampleNote] basicModel defaultDeck).successes = [] ∧
    (NoteImporter.batch_counter sampleConfig
        (NoteImporter.batch_state sampleConfig sampleCol sampleSrcCol [sampleNote]
          basicModel defaultDeck).1
        (NoteImporter.batch_state sampleConfig sampleCol sampleSrcCol [sampleNote]
          basicModel defaultDeck).2
        [sampleNote] basicModel defaultDeck).duplicates.length = 1 :=
  C5_success_then_duplicate sampleConfig sampleCol sampleSrcCol sampleNote basicModel defaultDeck
    rfl (by decide) (by decide) (by decide)

/-- C6: when the destination store's lookup by the source schema's name finds
a schema whose field-name sequence is exactly equal to the source schema's,
`reconcile` returns that existing destination schema, creates nothing, and
leaves the destination store — in particular its schema count — unchanged. -/
theorem C6_reconcile_reuses_exact_match (s d : Schema) (col : DestCollection)
    (hfind : col.models.find? (fun m => m.name == s.name) = some d)
    (hfields : d.fields = s.fields) :
    reconcile s col = (d, col) ∧
    (reconcile s col).2.models.length = col.models.length := by
  have h : reconcile s col = (d, col) := by
    unfold reconcile
    rw [hfind]
    simp [hfields]
  exact ⟨h, by rw [h]⟩

/-- The "Basic" schema installed in the sample destination collection. -/
def basicSchema : Schema := ⟨1, "Basic", ["Front", "Back"], 1⟩

/-- A source schema with the same name and field sequence as `basicSchema`. -/
def srcSchema : Schema := ⟨42, "Basic", ["Front", "Back"], 9⟩

/-- C6 (witness): reconciliation of the concrete matching schema reuses the
existing destination schema and leaves the schema table unchanged. -/
theorem C6_reconcile_reuses_exact_match_witness :
    reconcile srcSchema sampleCol = (basicSchema, sampleCol) ∧
    (reconcile srcSchema sampleCol).2.models.length = sampleCol.models.length :=
  C6_reconcile_reuses_exact_match srcSchema basicSchema sampleCol (by decide) rfl

/-- `open_other_col` keeps at most one secondary handle open: either it does
nothing, or it opens the selected collection after closing the previous one. -/
theorem open_other_col_handle_bound (st : MainWindow)
    (h : st.otherCol.openHandles.length ≤ 1) :
    (open_other_col st).otherCol.openHandles.length ≤ 1 := by
  unfold open_other_col
  cases hsel : st.selectedProfileName with
  | none => exact h
  | some p =>
    dsimp only
    by_cases hc : ((!st.otherCol.is_opened || st.otherCol.profile ≠ some p) : Bool) = true
    · rw [if_pos hc]
      simp [CollectionManager.open_collection, CollectionManager.close_all]
    · rw [if_neg hc]
      exact h

/-- C7: at most one secondary collection handle is open at any time — every
lifecycle event (selecting a source profile, the host profile unloading)
preserves the bound; `open_collection` first closes the previous handle, so
the newly opened one is the only open handle; and unloading the host profile
closes the window and releases all secondary-store resources. -/
theorem C7_single_secondary_handle (st : MainWindow) (e : ProfileEvent) (p : String)
    (h : st.otherCol.openHandles.length ≤ 1) :
    (profile_step st e).otherCol.openHandles.length ≤ 1 ∧
    (st.otherCol.open_collection p).openHandles = [p] ∧
    (on_profile_will_close st).otherCol.openHandles = [] ∧
    (on_profile_will_close st).visible = false := by
  refine ⟨?_, rfl, rfl, rfl⟩
  cases e with
  | selectProfile nm => exact open_other_col_handle_bound _ h
  | profileWillClose => simp [profile_step, on_profile_will_close, CollectionManager.close_all]

/-- C7 (witness): the lifecycle bound at a concrete window state with one
open secondary handle. -/
theorem C7_single_secondary_handle_witness :
    (profile_step busyWindow
        (ProfileEvent.selectProfile (some "mining"))).otherCol.openHandles.length ≤ 1 ∧
    (busyWindow.otherCol.open_collection "mining").openHandles = ["mining"] ∧
    (on_profile_will_close busyWindow).otherCol.openHandles = [] ∧
    (on_profile_will_close busyWindow).visible = false :=
  C7_single_secondary_handle busyWindow (ProfileEvent.selectProfile (some "mining")) "mining"
    (by decide)

/-- C8: a remote (web) search with empty search text never issues a request,
for every configuration (in particular regardless of `allow_empty_search`,
which the remote path does not consult): the handler returns before launching
any operation, leaving the lock untouched and the note list cleared, and the
request-argument builder produces an empty argument map when no keyword is
present. -/
theorem C8_remote_empty_search (cfg : Config) (st : MainWindow) (opts : RemoteOpts) :
    (perform_remote_search cfg st "").2 = LaunchedOp.none ∧
    (perform_remote_search cfg st "").1.noteList = [] ∧
    (perform_remote_search cfg st "").1.lock = st.lock ∧
    get_request_args "" opts = [] :=
  ⟨rfl, rfl, rfl, rfl⟩

/-- C9: `get_target_note_type` returns a note type only when the selected
model's id is strictly greater than zero; for the `NO_MODEL` sentinel or any
nonpositive id it returns `none` — and a nonpositive selected id is exactly
what makes the import batch abort with the `noteTypeUnavailable`
(SchemaUnavailable) signal at pipeline entry. -/
theorem C9_target_note_type (models : List NotetypeDict) (sel : NameId) (cfg : Config)
    (col : DestCollection) (src : SourceCollection) (notes : List SourceNote) (deck : NameId) :
    (sel.id ≤ 0 → get_target_note_type models sel = Option.none) ∧
    (∀ t, get_target_note_type models sel = some t → 0 < sel.id) ∧
    get_target_note_type models NO_MODEL = Option.none ∧
    (sel.id ≤ 0 →
      (NoteImporter.import_notes cfg col src notes sel deck).2 =
        BatchResult.noteTypeUnavailable) := by
  refine ⟨?_, ?_, rfl, ?_⟩
  · intro h
    unfold get_target_note_type
    rw [if_neg (by rintro ⟨-, h2⟩; omega)]
  · intro t ht
    unfold get_target_note_type at ht
    by_cases hc : sel.id ≠ 0 ∧ sel.id > 0
    · exact hc.2
    · rw [if_neg hc] at ht
      exact absurd ht (by simp)
  · intro h
    unfold NoteImporter.import_notes
    rw [if_pos h]

/-- C9 (witness): the `NO_MODEL` sentinel yields no target note type, and
an import batch invoked with it aborts with the distinct signal. -/
theorem C9_target_note_type_witness :
    get_target_note_type [⟨1, "Basic"⟩] NO_MODEL = Option.none ∧
    (NoteImporter.import_notes sampleConfig sampleCol sampleSrcCol [sampleNote] NO_MODEL
        defaultDeck).2 = BatchResult.noteTypeUnavailable :=
  ⟨(C9_target_note_type [⟨1, "Basic"⟩] NO_MODEL sampleConfig sampleCol sampleSrcCol [sampleNote]
      defaultDeck).1 (by decide),
   (C9_target_note_type [⟨1, "Basic"⟩] NO_MODEL sampleConfig sampleCol sampleSrcCol [sampleNote]
      defaultDeck).2.2.2 (by decide)⟩

/-- C10: for every finished search, local or remote, at most
`max_displayed_notes` of the found notes are placed in the note list, while
the result label always receives the full found count; when fewer notes are
displayed than found the label text says "displaying first D", and when all
are displayed it reports the plain count — in both cases the label is shown. -/
theorem C10_truncation_and_label (cfg : Config) (st : MainWindow) (ids : List Nat)
    (rnotes : List String) :
    (local_search_finished cfg st ids).noteList.length ≤ cfg.max_displayed_notes ∧
    (local_search_finished cfg st ids).searchLabel =
      some (set_search_result ids.length cfg.max_displayed_notes) ∧
    (remote_search_finished cfg st rnotes).noteList.length ≤ cfg.max_displayed_notes ∧
    (remote_search_finished cfg st rnotes).searchLabel =
      some (set_search_result rnotes.length cfg.max_displayed_notes) ∧
    (cfg.max_displayed_notes < ids.length →
      (set_search_result ids.length cfg.max_displayed_notes).text =
        toString ids.length ++ " notes found (displaying first " ++
          toString cfg.max_displayed_notes ++ ")" ∧
      (set_search_result ids.length cfg.max_displayed_notes).visible = true) ∧
    (0 < ids.length → ids.length ≤ cfg.max_displayed_notes →
      (set_search_result ids.length cfg.max_displayed_notes).text =
        toString ids.length ++ " notes found" ∧
      (set_search_result ids.length cfg.max_displayed_notes).visible = true) := by
  refine ⟨?_, rfl, ?_, rfl, ?_, ?_⟩
  · simp only [local_search_finished, List.length_map, List.length_take]
    omega
  · simp only [remote_search_finished, List.length_map, List.length_take]
    omega
  · intro hlt
    unfold set_search_result SearchResultLabel.set_count
    rw [min_eq_right (le_of_lt hlt)]
    rw [if_neg (by omega), if_neg (by omega)]
    exact ⟨rfl, rfl⟩
  · intro hpos hle
    unfold set_search_result SearchResultLabel.set_count
    rw [min_eq_left hle]
    rw [if_neg (by omega), if_pos rfl]
    exact ⟨rfl, rfl⟩

/-- C10 (witness): with a display limit of three, a five-note result is
truncated to three displayed notes with the "displaying first 3" label, and a
two-note result is displayed in full with the plain-count label. -/
theorem C10_truncation_and_label_witness :
    ((set_search_result 5 3).text =
        toString 5 ++ " notes found (displaying first " ++ toString 3 ++ ")" ∧
      (set_search_result 5 3).visible = true) ∧
    ((set_search_result 2 3).text = toString 2 ++ " notes found" ∧
      (set_search_result 2 3).visible = true) :=
  ⟨(C10_truncation_and_label smallConfig busyWindow [1, 2, 3, 4, 5] []).2.2.2.2.1 (by decide),
   (C10_truncation_and_label smallConfig busyWindow [1, 2] []).2.2.2.2.2 (by decide) (by decide)⟩

end CroPro
